import Mathlib

/-!
Verification of LLGL subsystems: the Direct3D12 staging-buffer pool,
the OpenGL deferred command stream, the GL swap chain, the platform
canvas, and the testbed module-name resolution.

Machine integers (UINT64, GLuint, ...) are modelled as `Nat`; the code
under scrutiny never relies on wrap-around for these quantities.
`HRESULT` is modelled as `Int` with `FAILED hr ↔ hr < 0`.
-/

namespace LLGL

/- ===== Windows / D3D12 basic types ===== -/

abbrev HRESULT := Int

def S_OK : HRESULT := 0

def FAILED (hr : HRESULT) : Prop := hr < 0

instance (hr : HRESULT) : Decidable (FAILED hr) := by
  unfold FAILED; infer_instance

/-- D3D12 resource states, modelled by their numeric flag values. -/
abbrev D3D12_RESOURCE_STATES := Nat

def D3D12_RESOURCE_STATE_COPY_DEST : D3D12_RESOURCE_STATES := 1024

def D3D12_RESOURCE_STATE_COPY_SOURCE : D3D12_RESOURCE_STATES := 2048

/-- A D3D12 resource as the staging pool sees it: the tracked resource
state (`currentState` in `D3D12Resource`) and the byte content of the
underlying buffer. -/
structure D3D12Resource where
  currentState : D3D12_RESOURCE_STATES
  data : List Nat
deriving DecidableEq, Repr

/-- Modelled from the spec: `D3D12CommandContext::TransitionResource`
(the command context lives outside src/). The staging pool uses it to
move a buffer between resource states; its effect on the tracked state
is to set `currentState` to the new state. -/
def TransitionResource (r : D3D12Resource) (newState : D3D12_RESOURCE_STATES) :
    D3D12Resource :=
  { r with currentState := newState }

/-- Modelled from the spec: `D3D12StagingBuffer` (its .cpp lives outside
src/): one chunk of the chunked CPU-visible staging memory region, with
a fixed byte capacity `size` and a write offset `offset`. -/
structure D3D12StagingBuffer where
  size : Nat
  offset : Nat
deriving DecidableEq, Repr

/-- Modelled from the spec: `D3D12StagingBuffer::Capacity(dataSize)`
holds when the chunk still has at least `dataSize` bytes of remaining
capacity past its write offset. -/
def D3D12StagingBuffer.Capacity (b : D3D12StagingBuffer) (dataSize : Nat) : Bool :=
  b.offset + dataSize ≤ b.size

/-- Modelled from the spec: `D3D12StagingBuffer::Reset` rewinds the
write offset without touching the allocation. -/
def D3D12StagingBuffer.Reset (b : D3D12StagingBuffer) : D3D12StagingBuffer :=
  { b with offset := 0 }

/-- Modelled from the spec: `D3D12StagingBuffer::WriteAndIncrementOffset`
writes `dataSize` bytes at the current offset and advances the offset by
`dataSize`. The HRESULT of the underlying native write is supplied by the
environment (`hrWrite` below) and returned unchanged. -/
def D3D12StagingBuffer.WriteAndIncrementOffset (b : D3D12StagingBuffer)
    (dataSize : Nat) : D3D12StagingBuffer :=
  { b with offset := b.offset + dataSize }

/-- Modelled from the spec: `GetAlignedSize` from Core/CoreUtils.h (not
under src/) rounds `size` up to the next multiple of `alignment` when
`alignment > 1`, and returns `size` unchanged otherwise. -/
def GetAlignedSize (size alignment : Nat) : Nat :=
  if alignment > 1 then ((size + alignment - 1) / alignment) * alignment else size

/-- Modelled from the spec: `D3D12StagingBuffer::Create` allocates the
buffer with capacity `size` rounded up to `alignment` and a fresh write
offset. -/
def D3D12StagingBuffer.Create (size alignment : Nat) : D3D12StagingBuffer :=
  { size := GetAlignedSize size alignment, offset := 0 }

/-- The pool state of `D3D12StagingBufferPool`: the chunk list, the
current chunk index, the configured chunk size, and the two global
staging buffers. -/
structure D3D12StagingBufferPool where
  chunks : List D3D12StagingBuffer
  chunkIdx : Nat
  chunkSize : Nat
  globalUploadBuffer : D3D12StagingBuffer
  globalReadbackBuffer : D3D12StagingBuffer
deriving DecidableEq, Repr

/-- Replace the element at index `i` by `f` applied to it (other indices
and out-of-range calls leave the list unchanged). -/
def updateAt (f : α → α) : List α → Nat → List α
  | [], _ => []
  | x :: xs, 0 => f x :: xs
  | _x :: xs, Nat.succ n => _x :: updateAt f xs n

/-- The `while` loop of `D3D12StagingBufferPool::WriteStaged`: starting
at `idx`, skip chunks that do not have capacity for `dataSize`; stops at
the first fitting chunk or at `chunks.length`. -/
def findChunkIdx (chunks : List D3D12StagingBuffer) (idx : Nat) (dataSize : Nat) :
    Nat :=
  if h : idx < chunks.length then
    if (chunks.get ⟨idx, h⟩).Capacity dataSize then idx
    else findChunkIdx chunks (idx + 1) dataSize
  else idx
termination_by chunks.length - idx

/-- Model of `D3D12StagingBufferPool::Reset`: reset every chunk and rewind the
current chunk index. -/
def D3D12StagingBufferPool.Reset (p : D3D12StagingBufferPool) :
    D3D12StagingBufferPool :=
  { p with chunks := p.chunks.map D3D12StagingBuffer.Reset, chunkIdx := 0 }

/-- Model of `D3D12StagingBufferPool::AllocChunk`: append one chunk of size
`max chunkSize minChunkSize` and make it current. -/
def D3D12StagingBufferPool.AllocChunk (p : D3D12StagingBufferPool)
    (minChunkSize : Nat) : D3D12StagingBufferPool :=
  { p with
      chunks := p.chunks ++ [{ size := max p.chunkSize minChunkSize, offset := 0 }]
      chunkIdx := p.chunks.length }

/-- Result of a staged or immediate write: the returned HRESULT, the
pool and destination buffer after the call, and the sequence of resource
states the destination was transitioned through. -/
structure WriteResult where
  hr : HRESULT
  pool : D3D12StagingBufferPool
  dstBuffer : D3D12Resource
  transitions : List D3D12_RESOURCE_STATES
deriving DecidableEq, Repr

/-- Model of `D3D12StagingBufferPool::WriteStaged`: advance the chunk index to a
chunk that fits `dataSize` (allocating a new chunk when none does),
transition the destination to COPY_DEST, write through the chunk, and
transition the destination back to its previous state. `hrWrite` is the
environment-supplied HRESULT of the chunk write. -/
def D3D12StagingBufferPool.WriteStaged (p : D3D12StagingBufferPool)
    (dstBuffer : D3D12Resource) (_dstOffset : Nat) (dataSize : Nat)
    (hrWrite : HRESULT) : WriteResult :=
  let p1 := { p with chunkIdx := findChunkIdx p.chunks p.chunkIdx dataSize }
  let p2 := if p1.chunkIdx = p1.chunks.length then p1.AllocChunk dataSize else p1
  let oldResourceState := dstBuffer.currentState
  let dst1 := TransitionResource dstBuffer D3D12_RESOURCE_STATE_COPY_DEST
  let p3 := { p2 with
                chunks := updateAt (D3D12StagingBuffer.WriteAndIncrementOffset
                  · dataSize) p2.chunks p2.chunkIdx }
  let dst2 := TransitionResource dst1 oldResourceState
  { hr := hrWrite, pool := p3, dstBuffer := dst2
    transitions := [D3D12_RESOURCE_STATE_COPY_DEST, oldResourceState] }

/-- Model of `D3D12StagingBufferPool::ResizeBuffer`: re-create the staging buffer
only when the alignment-rounded requested size exceeds its current
capacity; allocation uses at least a 4096-byte alignment. -/
def ResizeBuffer (stagingBuffer : D3D12StagingBuffer) (size alignment : Nat) :
    D3D12StagingBuffer :=
  let alignedSize := GetAlignedSize size alignment
  if stagingBuffer.Capacity alignedSize then stagingBuffer
  else D3D12StagingBuffer.Create alignedSize 4096

/-- Model of `D3D12StagingBufferPool::WriteImmediate`: grow the global upload
buffer if needed, transition the destination to COPY_DEST, write through
the global upload buffer (which does not advance any offset), and
transition the destination back. -/
def D3D12StagingBufferPool.WriteImmediate (p : D3D12StagingBufferPool)
    (dstBuffer : D3D12Resource) (_dstOffset : Nat) (dataSize : Nat)
    (alignment : Nat) (hrWrite : HRESULT) : WriteResult :=
  let p1 := { p with globalUploadBuffer := ResizeBuffer p.globalUploadBuffer dataSize alignment }
  let oldResourceState := dstBuffer.currentState
  let dst1 := TransitionResource dstBuffer D3D12_RESOURCE_STATE_COPY_DEST
  let dst2 := TransitionResource dst1 oldResourceState
  { hr := hrWrite, pool := p1, dstBuffer := dst2
    transitions := [D3D12_RESOURCE_STATE_COPY_DEST, oldResourceState] }

/-- Result of `ReadSubresourceRegion`: the returned HRESULT, pool and
source buffer after the call, the bytes written to the caller's output
memory (`none` when the output memory is untouched), the written range
passed to `Unmap` (`none` when `Unmap` is never reached), and the
resource-state transitions of the source buffer. -/
structure ReadResult where
  hr : HRESULT
  pool : D3D12StagingBufferPool
  srcBuffer : D3D12Resource
  output : Option (List Nat)
  unmapWrittenRange : Option (Nat × Nat)
  transitions : List D3D12_RESOURCE_STATES
deriving DecidableEq, Repr

/-- Model of `D3D12StagingBufferPool::ReadSubresourceRegion`: grow the global
readback buffer, copy `dataSize` bytes of the source at `srcOffset` into
it under a COPY_SOURCE transition (restored afterwards), then map the
readback buffer (`hrMap` is the environment-supplied HRESULT of `Map`):
on failure return `hrMap` without touching the output; on success copy
the mapped bytes out, unmap with an empty written range and return S_OK. -/
def D3D12StagingBufferPool.ReadSubresourceRegion (p : D3D12StagingBufferPool)
    (srcBuffer : D3D12Resource) (srcOffset : Nat) (dataSize : Nat)
    (alignment : Nat) (hrMap : HRESULT) : ReadResult :=
  let p1 := { p with globalReadbackBuffer := ResizeBuffer p.globalReadbackBuffer dataSize alignment }
  let oldResourceState := srcBuffer.currentState
  let src1 := TransitionResource srcBuffer D3D12_RESOURCE_STATE_COPY_SOURCE
  let readbackData := (srcBuffer.data.drop srcOffset).take dataSize
  let src2 := TransitionResource src1 oldResourceState
  if FAILED hrMap then
    { hr := hrMap, pool := p1, srcBuffer := src2, output := none
      unmapWrittenRange := none
      transitions := [D3D12_RESOURCE_STATE_COPY_SOURCE, oldResourceState] }
  else
    { hr := S_OK, pool := p1, srcBuffer := src2, output := some readbackData
      unmapWrittenRange := some (0, 0)
      transitions := [D3D12_RESOURCE_STATE_COPY_SOURCE, oldResourceState] }

/- ===== OpenGL swap chain (GLSwapChain.cpp) ===== -/

/-- The GL swap chain as far as the swap-buffer queries see it; the GL
backend keeps no swap-buffer state of its own (`framebufferHeight_` is
the only related member). -/
structure GLSwapChain where
  framebufferHeight : Int
deriving DecidableEq, Repr

/-- Model of `GLSwapChain::GetCurrentSwapIndex`: the backend returns a dummy
index 0. -/
def GLSwapChain.GetCurrentSwapIndex (_s : GLSwapChain) : Nat := 0

/-- Model of `GLSwapChain::GetNumSwapBuffers`: the backend returns a dummy
count 1. -/
def GLSwapChain.GetNumSwapBuffers (_s : GLSwapChain) : Nat := 1

/- ===== Platform canvas (Canvas.cpp) ===== -/

/-- Model of `CanvasDescriptor` (declaration outside src/): the descriptor passed
to `Canvas::Create`; its fields do not influence the non-mobile factory,
which ignores the descriptor entirely. -/
structure CanvasDescriptor where
  title : String
  borderless : Bool
deriving DecidableEq, Repr

/-- Model of `VideoModeDescriptor` (declaration outside src/): the video-mode
descriptor passed to `Canvas::AdaptForVideoMode`, ignored by the default
implementation. -/
structure VideoModeDescriptor where
  width : Nat
  height : Nat
  fullscreen : Bool
deriving DecidableEq, Repr

/-- A canvas holds its list of registered event listeners; listeners are
identified by their (non-null) pointer identity, modelled as `Nat`. -/
structure Canvas where
  eventListeners : List Nat
deriving DecidableEq, Repr

/-- Model of `Canvas::Create` on non-mobile platforms: always returns null,
regardless of the descriptor. -/
def Canvas.Create (_desc : CanvasDescriptor) : Option Canvas := none

/-- Model of `Canvas::AdaptForVideoMode`: the default implementation always
returns false and leaves the descriptor alone. -/
def Canvas.AdaptForVideoMode (_c : Canvas) (_videoModeDesc : VideoModeDescriptor) :
    Bool := false

/-- Modelled from the spec: `AddOnceToSharedList` from Core/Helper.h
(not under src/): append the entry only when it is not already in the
list. -/
def AddOnceToSharedList (l : List Nat) (entry : Nat) : List Nat :=
  if entry ∈ l then l else l ++ [entry]

/-- Modelled from the spec: `RemoveFromSharedList` from Core/Helper.h
(not under src/): remove the first occurrence of the entry from the
list. -/
def RemoveFromSharedList (l : List Nat) (entry : Nat) : List Nat :=
  l.erase entry

/-- Model of `Canvas::AddEventListener`. -/
def Canvas.AddEventListener (c : Canvas) (eventListener : Nat) : Canvas :=
  { c with eventListeners := AddOnceToSharedList c.eventListeners eventListener }

/-- Model of `Canvas::RemoveEventListener`. -/
def Canvas.RemoveEventListener (c : Canvas) (eventListener : Nat) : Canvas :=
  { c with eventListeners := RemoveFromSharedList c.eventListeners eventListener }

/-- Model of `Canvas::ProcessEvents` notifies every registered listener in order
(`FOREACH_LISTENER_CALL`); the result is the notification order. -/
def Canvas.ProcessEvents (c : Canvas) : List Nat :=
  c.eventListeners

/- ===== Testbed module resolution (TestbedMain.cpp) ===== -/

/-- Model of `ModuleAndVersion` from TestbedMain.cpp: a module name together with
an optional version (0 when absent). -/
structure ModuleAndVersion where
  name : String
  version : Nat
deriving DecidableEq, Repr

/-- Value of a string of decimal digits, as `atoi` computes it on an
all-digit string. -/
def digitsToNat (cs : List Char) : Nat :=
  cs.foldl (fun a c => a * 10 + (c.toNat - 48)) 0

/-- Full-string match of the regex `\d{3}`. -/
def isThreeDigits (s : String) : Bool :=
  s.length = 3 && s.toList.all Char.isDigit

/-- Full-string match of the regex `gl\d{3}` used by
`GetRendererModule`. -/
def matchesGlVersion (s : String) : Bool :=
  s.startsWith "gl" && isThreeDigits (s.drop 2)

/-- Full-string match of the regex `opengl\d{3}` used by
`GetRendererModule`. -/
def matchesOpenGlVersion (s : String) : Bool :=
  s.startsWith "opengl" && isThreeDigits (s.drop 6)

/-- Model of `GetRendererModule` from TestbedMain.cpp: resolve a user-supplied
module name to the canonical module name and version. -/
def GetRendererModule (name : String) : ModuleAndVersion :=
  if name = "gl" ∨ name = "opengl" then ⟨"OpenGL", 0⟩
  else if name = "vk" ∨ name = "vulkan" then ⟨"Vulkan", 0⟩
  else if name = "mt" ∨ name = "mtl" ∨ name = "metal" then ⟨"Metal", 0⟩
  else if name = "d3d11" ∨ name = "dx11" ∨ name = "direct3d11" then ⟨"Direct3D11", 0⟩
  else if name = "d3d12" ∨ name = "dx12" ∨ name = "direct3d12" then ⟨"Direct3D12", 0⟩
  else if name = "null" then ⟨"Null", 0⟩
  else if matchesGlVersion name then ⟨"OpenGL", digitsToNat (name.drop 2).toList⟩
  else if matchesOpenGlVersion name then ⟨"OpenGL", digitsToNat (name.drop 6).toList⟩
  else ⟨name, 0⟩

/-- The alias table exactly as claim C7 words it: each recognized alias
with its canonical backend module. -/
def rendererModuleAliases : List (String × String) :=
  [("gl", "OpenGL"), ("opengl", "OpenGL"),
   ("vk", "Vulkan"), ("vulkan", "Vulkan"),
   ("mt", "Metal"), ("mtl", "Metal"), ("metal", "Metal"),
   ("d3d11", "Direct3D11"), ("dx11", "Direct3D11"), ("direct3d11", "Direct3D11"),
   ("d3d12", "Direct3D12"), ("dx12", "Direct3D12"), ("direct3d12", "Direct3D12"),
   ("null", "Null")]

/-- Claim C7's description of `GetRendererModule`, stated independently
of the source: look the name up in the alias table; otherwise recognize
"gl" or "opengl" followed by exactly three decimal digits as an OpenGL
version request; otherwise return the name unchanged with version 0. -/
def getRendererModuleSpec (name : String) : ModuleAndVersion :=
  match rendererModuleAliases.find? (fun a => name = a.1) with
  | some a => ⟨a.2, 0⟩
  | none =>
      if matchesGlVersion name then ⟨"OpenGL", digitsToNat (name.drop 2).toList⟩
      else if matchesOpenGlVersion name then ⟨"OpenGL", digitsToNat (name.drop 6).toList⟩
      else ⟨name, 0⟩

/- ===== OpenGL deferred command stream (GLCommand.h) ===== -/

/-- Model of `Offset3D` (LLGL/Types.h): a 3D offset; int components modelled by
their bit patterns. -/
structure Offset3D where
  x : Nat
  y : Nat
  z : Nat
deriving DecidableEq, Repr

/-- Model of `Extent3D` (LLGL/Types.h): a 3D extent. -/
structure Extent3D where
  width : Nat
  height : Nat
  depth : Nat
deriving DecidableEq, Repr

/-- Model of `TextureSubresource` (LLGL/TextureFlags.h): the subresource range of
a texture region. -/
structure TextureSubresource where
  baseArrayLayer : Nat
  numArrayLayers : Nat
  baseMipLevel : Nat
  numMipLevels : Nat
deriving DecidableEq, Repr

/-- Model of `TextureRegion` (LLGL/TextureFlags.h): subresource, offset and
extent of a texture copy. -/
structure TextureRegion where
  subresource : TextureSubresource
  offset : Offset3D
  extent : Extent3D
deriving DecidableEq, Repr

/-- Model of `GLViewport` (GLState.h, outside src/): x, y, width, height; float
components modelled by their bit patterns. -/
structure GLViewport where
  x : Nat
  y : Nat
  width : Nat
  height : Nat
deriving DecidableEq, Repr

/-- Model of `GLDepthRange` (GLState.h, outside src/): near/far depth range;
double components modelled by their bit patterns. -/
structure GLDepthRange where
  minDepth : Nat
  maxDepth : Nat
deriving DecidableEq, Repr

/-- Model of `GLScissor` (GLState.h, outside src/): x, y, width, height. -/
structure GLScissor where
  x : Nat
  y : Nat
  width : Nat
  height : Nat
deriving DecidableEq, Repr

/-- Model of `ClearValue` (LLGL/CommandBufferFlags.h): four color components, a
depth value and a stencil value. -/
structure ClearValue where
  color0 : Nat
  color1 : Nat
  color2 : Nat
  color3 : Nat
  depth : Nat
  stencil : Nat
deriving DecidableEq, Repr

/-- Model of `AttachmentClear` (LLGL/CommandBufferFlags.h): clear flags, color
attachment index and clear value. -/
structure AttachmentClear where
  flags : Nat
  colorAttachment : Nat
  clearValue : ClearValue
deriving DecidableEq, Repr

/-- The high-level commands of the GL deferred command buffer, one
constructor per `GLCmd*` payload struct of GLCommand.h (the two structs
guarded by `LLGL_GL_ENABLE_OPENGL2X` are conditionally compiled out and
omitted; the commented-out empty payload structs are opcodes with no
payload). Pointers (`GLBuffer*`, `GLTexture*`, ...) are modelled by
their address as `Nat`; variable-length trailing data (`data[dataSize]`,
`viewports[count]`, ...) is carried as an explicit list whose length
plays the role of the corresponding size/count field. -/
inductive GLCommand where
  | bufferSubData (buffer offset : Nat) (data : List Nat)
  | copyBufferSubData (writeBuffer readBuffer readOffset writeOffset size : Nat)
  | clearBufferData (buffer data : Nat)
  | clearBufferSubData (buffer offset size data : Nat)
  | copyImageSubData (dstTexture dstLevel : Nat) (dstOffset : Offset3D)
      (srcTexture srcLevel : Nat) (srcOffset : Offset3D) (extent : Extent3D)
  | copyImageToBuffer (texture : Nat) (region : TextureRegion)
      (bufferID offset size rowLength imageHeight : Nat)
  | copyImageFromBuffer (texture : Nat) (region : TextureRegion)
      (bufferID offset size rowLength imageHeight : Nat)
  | generateMipmap (texture : Nat)
  | generateMipmapSubresource (texture baseMipLevel numMipLevels baseArrayLayer numArrayLayers : Nat)
  | execute (commandBuffer : Nat)
  | viewport (viewport : GLViewport) (depthRange : GLDepthRange)
  | viewportArray (first : Nat) (viewportsAndRanges : List (GLViewport × GLDepthRange))
  | scissor (scissor : GLScissor)
  | scissorArray (first : Nat) (scissors : List GLScissor)
  | clearColor (color0 color1 color2 color3 : Nat)
  | clearDepth (depth : Nat)
  | clearStencil (stencil : Nat)
  | clear (flags : Nat)
  | clearAttachmentsWithRenderPass (renderPass : Nat) (clearValues : List ClearValue)
  | clearBuffers (attachments : List AttachmentClear)
  | bindVertexArray (vao : Nat)
  | bindElementArrayBufferToVAO (id : Nat) (indexType16Bits : Bool)
  | bindBufferBase (target index id : Nat)
  | bindBuffersBase (target first : Nat) (buffers : List Nat)
  | beginTransformFeedback (primitiveMove : Nat)
  | beginTransformFeedbackNV (primitiveMove : Nat)
  | endTransformFeedback
  | endTransformFeedbackNV
  | bindResourceHeap (resourceHeap descriptorSet : Nat)
  | bindRenderTarget (renderTarget : Nat)
  | bindPipelineState (pipelineState : Nat)
  | setBlendColor (color0 color1 color2 color3 : Nat)
  | setStencilRef (ref face : Nat)
  | setUniforms (program uniformType location count : Nat) (data : List Nat)
  | beginQuery (queryHeap query : Nat)
  | endQuery (queryHeap : Nat)
  | beginConditionalRender (id mode : Nat)
  | endConditionalRender
  | drawArrays (mode first count : Nat)
  | drawArraysInstanced (mode first count instancecount : Nat)
  | drawArraysInstancedBaseInstance (mode first count instancecount baseinstance : Nat)
  | drawArraysIndirect (id numCommands mode indirect stride : Nat)
  | drawElements (mode count elementType indices : Nat)
  | drawElementsBaseVertex (mode count elementType indices basevertex : Nat)
  | drawElementsInstanced (mode count elementType indices instancecount : Nat)
  | drawElementsInstancedBaseVertex (mode count elementType indices instancecount basevertex : Nat)
  | drawElementsInstancedBaseVertexBaseInstance
      (mode count elementType indices instancecount basevertex baseinstance : Nat)
  | drawElementsIndirect (id numCommands mode elementType indirect stride : Nat)
  | multiDrawArraysIndirect (id mode indirect drawcount stride : Nat)
  | multiDrawElementsIndirect (id mode elementType indirect drawcount stride : Nat)
  | dispatchCompute (numgroupsX numgroupsY numgroupsZ : Nat)
  | dispatchComputeIndirect (id indirect : Nat)
  | bindTexture (slot texture : Nat)
  | bindImageTexture (unit level format texture : Nat)
  | bindSampler (layer sampler : Nat)
  | unbindResources (first count resetFlags : Nat)
  | pushDebugGroup (source id : Nat) (name : List Nat)
  | popDebugGroup

/-- Flatten a list of elements into the binary stream, one element after
the other. -/
def encodeVec (enc : α → List Nat) : List α → List Nat
  | [] => []
  | x :: xs => enc x ++ encodeVec enc xs

/-- One stream word. -/
def encWord (w : Nat) : List Nat := [w]

def encOffset3D (o : Offset3D) : List Nat := [o.x, o.y, o.z]

def encExtent3D (e : Extent3D) : List Nat := [e.width, e.height, e.depth]

def encTextureRegion (r : TextureRegion) : List Nat :=
  [r.subresource.baseArrayLayer, r.subresource.numArrayLayers,
   r.subresource.baseMipLevel, r.subresource.numMipLevels] ++
  encOffset3D r.offset ++ encExtent3D r.extent

def encViewport (v : GLViewport) : List Nat := [v.x, v.y, v.width, v.height]

def encDepthRange (d : GLDepthRange) : List Nat := [d.minDepth, d.maxDepth]

def encScissor (s : GLScissor) : List Nat := [s.x, s.y, s.width, s.height]

def encClearValue (c : ClearValue) : List Nat :=
  [c.color0, c.color1, c.color2, c.color3, c.depth, c.stencil]

def encAttachmentClear (a : AttachmentClear) : List Nat :=
  a.flags :: a.colorAttachment :: encClearValue a.clearValue

/-- Modelled from the spec: the encoder of the GL deferred command
buffer (GLDeferredCommandBuffer.cpp, outside src/). Each high-level
command is encoded as one opcode word followed by the fixed payload
struct of GLCommand.h, with any variable-length data appended directly
after the payload; size/count payload fields describe the length of that
trailing data. -/
def encodeCommand : GLCommand → List Nat
  | .bufferSubData buffer offset data =>
      0 :: buffer :: offset :: data.length :: data
  | .copyBufferSubData writeBuffer readBuffer readOffset writeOffset size =>
      [1, writeBuffer, readBuffer, readOffset, writeOffset, size]
  | .clearBufferData buffer data => [2, buffer, data]
  | .clearBufferSubData buffer offset size data => [3, buffer, offset, size, data]
  | .copyImageSubData dstTexture dstLevel dstOffset srcTexture srcLevel srcOffset extent =>
      4 :: dstTexture :: dstLevel :: (encOffset3D dstOffset ++
        srcTexture :: srcLevel :: (encOffset3D srcOffset ++ encExtent3D extent))
  | .copyImageToBuffer texture region bufferID offset size rowLength imageHeight =>
      5 :: texture :: (encTextureRegion region ++
        [bufferID, offset, size, rowLength, imageHeight])
  | .copyImageFromBuffer texture region bufferID offset size rowLength imageHeight =>
      6 :: texture :: (encTextureRegion region ++
        [bufferID, offset, size, rowLength, imageHeight])
  | .generateMipmap texture => [7, texture]
  | .generateMipmapSubresource texture baseMipLevel numMipLevels baseArrayLayer numArrayLayers =>
      [8, texture, baseMipLevel, numMipLevels, baseArrayLayer, numArrayLayers]
  | .execute commandBuffer => [9, commandBuffer]
  | .viewport viewport depthRange =>
      10 :: (encViewport viewport ++ encDepthRange depthRange)
  | .viewportArray first viewportsAndRanges =>
      11 :: first :: viewportsAndRanges.length ::
        (encodeVec encViewport (viewportsAndRanges.map Prod.fst) ++
         encodeVec encDepthRange (viewportsAndRanges.map Prod.snd))
  | .scissor scissor => 12 :: encScissor scissor
  | .scissorArray first scissors =>
      13 :: first :: scissors.length :: encodeVec encScissor scissors
  | .clearColor color0 color1 color2 color3 => [14, color0, color1, color2, color3]
  | .clearDepth depth => [15, depth]
  | .clearStencil stencil => [16, stencil]
  | .clear flags => [17, flags]
  | .clearAttachmentsWithRenderPass renderPass clearValues =>
      18 :: renderPass :: clearValues.length :: encodeVec encClearValue clearValues
  | .clearBuffers attachments =>
      19 :: attachments.length :: encodeVec encAttachmentClear attachments
  | .bindVertexArray vao => [20, vao]
  | .bindElementArrayBufferToVAO id indexType16Bits =>
      [21, id, if indexType16Bits then 1 else 0]
  | .bindBufferBase target index id => [22, target, index, id]
  | .bindBuffersBase target first buffers =>
      23 :: target :: first :: buffers.length :: buffers
  | .beginTransformFeedback primitiveMove => [24, primitiveMove]
  | .beginTransformFeedbackNV primitiveMove => [25, primitiveMove]
  | .endTransformFeedback => [26]
  | .endTransformFeedbackNV => [27]
  | .bindResourceHeap resourceHeap descriptorSet => [28, resourceHeap, descriptorSet]
  | .bindRenderTarget renderTarget => [29, renderTarget]
  | .bindPipelineState pipelineState => [30, pipelineState]
  | .setBlendColor color0 color1 color2 color3 => [31, color0, color1, color2, color3]
  | .setStencilRef ref face => [32, ref, face]
  | .setUniforms program uniformType location count data =>
      33 :: program :: uniformType :: location :: count :: data.length :: data
  | .beginQuery queryHeap query => [34, queryHeap, query]
  | .endQuery queryHeap => [35, queryHeap]
  | .beginConditionalRender id mode => [36, id, mode]
  | .endConditionalRender => [37]
  | .drawArrays mode first count => [38, mode, first, count]
  | .drawArraysInstanced mode first count instancecount =>
      [39, mode, first, count, instancecount]
  | .drawArraysInstancedBaseInstance mode first count instancecount baseinstance =>
      [40, mode, first, count, instancecount, baseinstance]
  | .drawArraysIndirect id numCommands mode indirect stride =>
      [41, id, numCommands, mode, indirect, stride]
  | .drawElements mode count elementType indices =>
      [42, mode, count, elementType, indices]
  | .drawElementsBaseVertex mode count elementType indices basevertex =>
      [43, mode, count, elementType, indices, basevertex]
  | .drawElementsInstanced mode count elementType indices instancecount =>
      [44, mode, count, elementType, indices, instancecount]
  | .drawElementsInstancedBaseVertex mode count elementType indices instancecount basevertex =>
      [45, mode, count, elementType, indices, instancecount, basevertex]
  | .drawElementsInstancedBaseVertexBaseInstance mode count elementType indices instancecount basevertex baseinstance =>
      [46, mode, count, elementType, indices, instancecount, basevertex, baseinstance]
  | .drawElementsIndirect id numCommands mode elementType indirect stride =>
      [47, id, numCommands, mode, elementType, indirect, stride]
  | .multiDrawArraysIndirect id mode indirect drawcount stride =>
      [48, id, mode, indirect, drawcount, stride]
  | .multiDrawElementsIndirect id mode elementType indirect drawcount stride =>
      [49, id, mode, elementType, indirect, drawcount, stride]
  | .dispatchCompute numgroupsX numgroupsY numgroupsZ =>
      [50, numgroupsX, numgroupsY, numgroupsZ]
  | .dispatchComputeIndirect id indirect => [51, id, indirect]
  | .bindTexture slot texture => [52, slot, texture]
  | .bindImageTexture unit level format texture => [53, unit, level, format, texture]
  | .bindSampler layer sampler => [54, layer, sampler]
  | .unbindResources first count resetFlags => [55, first, count, resetFlags]
  | .pushDebugGroup source id name =>
      56 :: source :: id :: name.length :: name
  | .popDebugGroup => [57]

/-- Read one word from the stream. -/
def decWord : List Nat → Option (Nat × List Nat)
  | w :: ws => some (w, ws)
  | [] => none

def decOffset3D : List Nat → Option (Offset3D × List Nat)
  | x :: y :: z :: ws => some (⟨x, y, z⟩, ws)
  | _ => none

def decExtent3D : List Nat → Option (Extent3D × List Nat)
  | w :: h :: d :: ws => some (⟨w, h, d⟩, ws)
  | _ => none

def decTextureRegion : List Nat → Option (TextureRegion × List Nat)
  | l0 :: l1 :: m0 :: m1 :: ox :: oy :: oz :: ew :: eh :: ed :: ws =>
      some (⟨⟨l0, l1, m0, m1⟩, ⟨ox, oy, oz⟩, ⟨ew, eh, ed⟩⟩, ws)
  | _ => none

def decViewport : List Nat → Option (GLViewport × List Nat)
  | x :: y :: w :: h :: ws => some (⟨x, y, w, h⟩, ws)
  | _ => none

def decDepthRange : List Nat → Option (GLDepthRange × List Nat)
  | mn :: mx :: ws => some (⟨mn, mx⟩, ws)
  | _ => none

def decScissor : List Nat → Option (GLScissor × List Nat)
  | x :: y :: w :: h :: ws => some (⟨x, y, w, h⟩, ws)
  | _ => none

def decClearValue : List Nat → Option (ClearValue × List Nat)
  | c0 :: c1 :: c2 :: c3 :: d :: s :: ws => some (⟨c0, c1, c2, c3, d, s⟩, ws)
  | _ => none

def decAttachmentClear : List Nat → Option (AttachmentClear × List Nat)
  | f :: a :: c0 :: c1 :: c2 :: c3 :: d :: s :: ws =>
      some (⟨f, a, ⟨c0, c1, c2, c3, d, s⟩⟩, ws)
  | _ => none

/-- Read `n` consecutive elements from the stream with the element
reader `dec`. -/
def decodeCount (dec : List Nat → Option (α × List Nat)) :
    Nat → List Nat → Option (List α × List Nat)
  | 0, ws => some ([], ws)
  | Nat.succ n, ws =>
    match dec ws with
    | none => none
    | some (x, ws') =>
      match decodeCount dec n ws' with
      | none => none
      | some (xs, ws'') => some (x :: xs, ws'')

/- Per-opcode payload decoders of the replay decoder: each reads the
fixed payload of its opcode, then the variable-length data announced by
the payload's size/count fields. -/

def decCmdBufferSubData : List Nat → Option (GLCommand × List Nat)
  | buffer :: offset :: size :: ws =>
    (match decodeCount decWord size ws with
     | some (data, ws') => some (.bufferSubData buffer offset data, ws')
     | none => none)
  | _ => none

def decCmdCopyBufferSubData : List Nat → Option (GLCommand × List Nat)
  | writeBuffer :: readBuffer :: readOffset :: writeOffset :: size :: ws =>
      some (.copyBufferSubData writeBuffer readBuffer readOffset writeOffset size, ws)
  | _ => none

def decCmdClearBufferData : List Nat → Option (GLCommand × List Nat)
  | buffer :: data :: ws => some (.clearBufferData buffer data, ws)
  | _ => none

def decCmdClearBufferSubData : List Nat → Option (GLCommand × List Nat)
  | buffer :: offset :: size :: data :: ws =>
      some (.clearBufferSubData buffer offset size data, ws)
  | _ => none

def decCmdCopyImageSubData : List Nat → Option (GLCommand × List Nat)
  | dstTexture :: dstLevel :: dx :: dy :: dz :: srcTexture :: srcLevel ::
      sx :: sy :: sz :: ew :: eh :: ed :: ws =>
      some (.copyImageSubData dstTexture dstLevel ⟨dx, dy, dz⟩
        srcTexture srcLevel ⟨sx, sy, sz⟩ ⟨ew, eh, ed⟩, ws)
  | _ => none

def decCmdCopyImageToBuffer : List Nat → Option (GLCommand × List Nat)
  | texture :: l0 :: l1 :: m0 :: m1 :: ox :: oy :: oz :: ew :: eh :: ed ::
      bufferID :: offset :: size :: rowLength :: imageHeight :: ws =>
      some (.copyImageToBuffer texture ⟨⟨l0, l1, m0, m1⟩, ⟨ox, oy, oz⟩, ⟨ew, eh, ed⟩⟩
        bufferID offset size rowLength imageHeight, ws)
  | _ => none

def decCmdCopyImageFromBuffer : List Nat → Option (GLCommand × List Nat)
  | texture :: l0 :: l1 :: m0 :: m1 :: ox :: oy :: oz :: ew :: eh :: ed ::
      bufferID :: offset :: size :: rowLength :: imageHeight :: ws =>
      some (.copyImageFromBuffer texture ⟨⟨l0, l1, m0, m1⟩, ⟨ox, oy, oz⟩, ⟨ew, eh, ed⟩⟩
        bufferID offset size rowLength imageHeight, ws)
  | _ => none

def decCmdGenerateMipmap : List Nat → Option (GLCommand × List Nat)
  | texture :: ws => some (.generateMipmap texture, ws)
  | _ => none

def decCmdGenerateMipmapSubresource : List Nat → Option (GLCommand × List Nat)
  | texture :: baseMipLevel :: numMipLevels :: baseArrayLayer :: numArrayLayers :: ws =>
      some (.generateMipmapSubresource texture baseMipLevel numMipLevels
        baseArrayLayer numArrayLayers, ws)
  | _ => none

def decCmdExecute : List Nat → Option (GLCommand × List Nat)
  | commandBuffer :: ws => some (.execute commandBuffer, ws)
  | _ => none

def decCmdViewport : List Nat → Option (GLCommand × List Nat)
  | vx :: vy :: vw :: vh :: mn :: mx :: ws =>
      some (.viewport ⟨vx, vy, vw, vh⟩ ⟨mn, mx⟩, ws)
  | _ => none

def decCmdViewportArray : List Nat → Option (GLCommand × List Nat)
  | first :: count :: ws =>
    (match decodeCount decViewport count ws with
     | some (vs, ws') =>
       (match decodeCount decDepthRange count ws' with
        | some (ds, ws'') => some (.viewportArray first (vs.zip ds), ws'')
        | none => none)
     | none => none)
  | _ => none

def decCmdScissor : List Nat → Option (GLCommand × List Nat)
  | sx :: sy :: sw :: sh :: ws => some (.scissor ⟨sx, sy, sw, sh⟩, ws)
  | _ => none

def decCmdScissorArray : List Nat → Option (GLCommand × List Nat)
  | first :: count :: ws =>
    (match decodeCount decScissor count ws with
     | some (ss, ws') => some (.scissorArray first ss, ws')
     | none => none)
  | _ => none

def decCmdClearColor : List Nat → Option (GLCommand × List Nat)
  | color0 :: color1 :: color2 :: color3 :: ws =>
      some (.clearColor color0 color1 color2 color3, ws)
  | _ => none

def decCmdClearDepth : List Nat → Option (GLCommand × List Nat)
  | depth :: ws => some (.clearDepth depth, ws)
  | _ => none

def decCmdClearStencil : List Nat → Option (GLCommand × List Nat)
  | stencil :: ws => some (.clearStencil stencil, ws)
  | _ => none

def decCmdClear : List Nat → Option (GLCommand × List Nat)
  | flags :: ws => some (.clear flags, ws)
  | _ => none

def decCmdClearAttachmentsWithRenderPass : List Nat → Option (GLCommand × List Nat)
  | renderPass :: count :: ws =>
    (match decodeCount decClearValue count ws with
     | some (cs, ws') => some (.clearAttachmentsWithRenderPass renderPass cs, ws')
     | none => none)
  | _ => none

def decCmdClearBuffers : List Nat → Option (GLCommand × List Nat)
  | count :: ws =>
    (match decodeCount decAttachmentClear count ws with
     | some (ats, ws') => some (.clearBuffers ats, ws')
     | none => none)
  | _ => none

def decCmdBindVertexArray : List Nat → Option (GLCommand × List Nat)
  | vao :: ws => some (.bindVertexArray vao, ws)
  | _ => none

def decCmdBindElementArrayBufferToVAO : List Nat → Option (GLCommand × List Nat)
  | id :: b :: ws => some (.bindElementArrayBufferToVAO id (b = 1), ws)
  | _ => none

def decCmdBindBufferBase : List Nat → Option (GLCommand × List Nat)
  | target :: index :: id :: ws => some (.bindBufferBase target index id, ws)
  | _ => none

def decCmdBindBuffersBase : List Nat → Option (GLCommand × List Nat)
  | target :: first :: count :: ws =>
    (match decodeCount decWord count ws with
     | some (buffers, ws') => some (.bindBuffersBase target first buffers, ws')
     | none => none)
  | _ => none

def decCmdBeginTransformFeedback : List Nat → Option (GLCommand × List Nat)
  | primitiveMove :: ws => some (.beginTransformFeedback primitiveMove, ws)
  | _ => none

def decCmdBeginTransformFeedbackNV : List Nat → Option (GLCommand × List Nat)
  | primitiveMove :: ws => some (.beginTransformFeedbackNV primitiveMove, ws)
  | _ => none

def decCmdEndTransformFeedback (ws : List Nat) : Option (GLCommand × List Nat) :=
  some (.endTransformFeedback, ws)

def decCmdEndTransformFeedbackNV (ws : List Nat) : Option (GLCommand × List Nat) :=
  some (.endTransformFeedbackNV, ws)

def decCmdBindResourceHeap : List Nat → Option (GLCommand × List Nat)
  | resourceHeap :: descriptorSet :: ws =>
      some (.bindResourceHeap resourceHeap descriptorSet, ws)
  | _ => none

def decCmdBindRenderTarget : List Nat → Option (GLCommand × List Nat)
  | renderTarget :: ws => some (.bindRenderTarget renderTarget, ws)
  | _ => none

def decCmdBindPipelineState : List Nat → Option (GLCommand × List Nat)
  | pipelineState :: ws => some (.bindPipelineState pipelineState, ws)
  | _ => none

def decCmdSetBlendColor : List Nat → Option (GLCommand × List Nat)
  | color0 :: color1 :: color2 :: color3 :: ws =>
      some (.setBlendColor color0 color1 color2 color3, ws)
  | _ => none

def decCmdSetStencilRef : List Nat → Option (GLCommand × List Nat)
  | ref :: face :: ws => some (.setStencilRef ref face, ws)
  | _ => none

def decCmdSetUniforms : List Nat → Option (GLCommand × List Nat)
  | program :: uniformType :: location :: count :: size :: ws =>
    (match decodeCount decWord size ws with
     | some (data, ws') =>
         some (.setUniforms program uniformType location count data, ws')
     | none => none)
  | _ => none

def decCmdBeginQuery : List Nat → Option (GLCommand × List Nat)
  | queryHeap :: query :: ws => some (.beginQuery queryHeap query, ws)
  | _ => none

def decCmdEndQuery : List Nat → Option (GLCommand × List Nat)
  | queryHeap :: ws => some (.endQuery queryHeap, ws)
  | _ => none

def decCmdBeginConditionalRender : List Nat → Option (GLCommand × List Nat)
  | id :: mode :: ws => some (.beginConditionalRender id mode, ws)
  | _ => none

def decCmdEndConditionalRender (ws : List Nat) : Option (GLCommand × List Nat) :=
  some (.endConditionalRender, ws)

def decCmdDrawArrays : List Nat → Option (GLCommand × List Nat)
  | mode :: first :: count :: ws => some (.drawArrays mode first count, ws)
  | _ => none

def decCmdDrawArraysInstanced : List Nat → Option (GLCommand × List Nat)
  | mode :: first :: count :: instancecount :: ws =>
      some (.drawArraysInstanced mode first count instancecount, ws)
  | _ => none

def decCmdDrawArraysInstancedBaseInstance : List Nat → Option (GLCommand × List Nat)
  | mode :: first :: count :: instancecount :: baseinstance :: ws =>
      some (.drawArraysInstancedBaseInstance mode first count instancecount baseinstance, ws)
  | _ => none

def decCmdDrawArraysIndirect : List Nat → Option (GLCommand × List Nat)
  | id :: numCommands :: mode :: indirect :: stride :: ws =>
      some (.drawArraysIndirect id numCommands mode indirect stride, ws)
  | _ => none

def decCmdDrawElements : List Nat → Option (GLCommand × List Nat)
  | mode :: count :: elementType :: indices :: ws =>
      some (.drawElements mode count elementType indices, ws)
  | _ => none

def decCmdDrawElementsBaseVertex : List Nat → Option (GLCommand × List Nat)
  | mode :: count :: elementType :: indices :: basevertex :: ws =>
      some (.drawElementsBaseVertex mode count elementType indices basevertex, ws)
  | _ => none

def decCmdDrawElementsInstanced : List Nat → Option (GLCommand × List Nat)
  | mode :: count :: elementType :: indices :: instancecount :: ws =>
      some (.drawElementsInstanced mode count elementType indices instancecount, ws)
  | _ => none

def decCmdDrawElementsInstancedBaseVertex : List Nat → Option (GLCommand × List Nat)
  | mode :: count :: elementType :: indices :: instancecount :: basevertex :: ws =>
      some (.drawElementsInstancedBaseVertex mode count elementType indices
        instancecount basevertex, ws)
  | _ => none

def decCmdDrawElementsInstancedBaseVertexBaseInstance :
    List Nat → Option (GLCommand × List Nat)
  | mode :: count :: elementType :: indices :: instancecount :: basevertex :: baseinstance :: ws =>
      some (.drawElementsInstancedBaseVertexBaseInstance mode count elementType
        indices instancecount basevertex baseinstance, ws)
  | _ => none

def decCmdDrawElementsIndirect : List Nat → Option (GLCommand × List Nat)
  | id :: numCommands :: mode :: elementType :: indirect :: stride :: ws =>
      some (.drawElementsIndirect id numCommands mode elementType indirect stride, ws)
  | _ => none

def decCmdMultiDrawArraysIndirect : List Nat → Option (GLCommand × List Nat)
  | id :: mode :: indirect :: drawcount :: stride :: ws =>
      some (.multiDrawArraysIndirect id mode indirect drawcount stride, ws)
  | _ => none

def decCmdMultiDrawElementsIndirect : List Nat → Option (GLCommand × List Nat)
  | id :: mode :: elementType :: indirect :: drawcount :: stride :: ws =>
      some (.multiDrawElementsIndirect id mode elementType indirect drawcount stride, ws)
  | _ => none

def decCmdDispatchCompute : List Nat → Option (GLCommand × List Nat)
  | numgroupsX :: numgroupsY :: numgroupsZ :: ws =>
      some (.dispatchCompute numgroupsX numgroupsY numgroupsZ, ws)
  | _ => none

def decCmdDispatchComputeIndirect : List Nat → Option (GLCommand × List Nat)
  | id :: indirect :: ws => some (.dispatchComputeIndirect id indirect, ws)
  | _ => none

def decCmdBindTexture : List Nat → Option (GLCommand × List Nat)
  | slot :: texture :: ws => some (.bindTexture slot texture, ws)
  | _ => none

def decCmdBindImageTexture : List Nat → Option (GLCommand × List Nat)
  | unit :: level :: format :: texture :: ws =>
      some (.bindImageTexture unit level format texture, ws)
  | _ => none

def decCmdBindSampler : List Nat → Option (GLCommand × List Nat)
  | layer :: sampler :: ws => some (.bindSampler layer sampler, ws)
  | _ => none

def decCmdUnbindResources : List Nat → Option (GLCommand × List Nat)
  | first :: count :: resetFlags :: ws =>
      some (.unbindResources first count resetFlags, ws)
  | _ => none

def decCmdPushDebugGroup : List Nat → Option (GLCommand × List Nat)
  | source :: id :: length :: ws =>
    (match decodeCount decWord length ws with
     | some (name, ws') => some (.pushDebugGroup source id name, ws')
     | none => none)
  | _ => none

def decCmdPopDebugGroup (ws : List Nat) : Option (GLCommand × List Nat) :=
  some (.popDebugGroup, ws)

/-- Modelled from the spec: the replay decoder of the GL deferred
command buffer (ExecuteGLCommand in GLCommandExecutor.cpp, outside
src/). Reads one opcode word and dispatches to that opcode's payload
decoder. -/
def decodeCommand : List Nat → Option (GLCommand × List Nat)
  | [] => none
  | w :: ws =>
    match w with
    | 0 => decCmdBufferSubData ws
    | 1 => decCmdCopyBufferSubData ws
    | 2 => decCmdClearBufferData ws
    | 3 => decCmdClearBufferSubData ws
    | 4 => decCmdCopyImageSubData ws
    | 5 => decCmdCopyImageToBuffer ws
    | 6 => decCmdCopyImageFromBuffer ws
    | 7 => decCmdGenerateMipmap ws
    | 8 => decCmdGenerateMipmapSubresource ws
    | 9 => decCmdExecute ws
    | 10 => decCmdViewport ws
    | 11 => decCmdViewportArray ws
    | 12 => decCmdScissor ws
    | 13 => decCmdScissorArray ws
    | 14 => decCmdClearColor ws
    | 15 => decCmdClearDepth ws
    | 16 => decCmdClearStencil ws
    | 17 => decCmdClear ws
    | 18 => decCmdClearAttachmentsWithRenderPass ws
    | 19 => decCmdClearBuffers ws
    | 20 => decCmdBindVertexArray ws
    | 21 => decCmdBindElementArrayBufferToVAO ws
    | 22 => decCmdBindBufferBase ws
    | 23 => decCmdBindBuffersBase ws
    | 24 => decCmdBeginTransformFeedback ws
    | 25 => decCmdBeginTransformFeedbackNV ws
    | 26 => decCmdEndTransformFeedback ws
    | 27 => decCmdEndTransformFeedbackNV ws
    | 28 => decCmdBindResourceHeap ws
    | 29 => decCmdBindRenderTarget ws
    | 30 => decCmdBindPipelineState ws
    | 31 => decCmdSetBlendColor ws
    | 32 => decCmdSetStencilRef ws
    | 33 => decCmdSetUniforms ws
    | 34 => decCmdBeginQuery ws
    | 35 => decCmdEndQuery ws
    | 36 => decCmdBeginConditionalRender ws
    | 37 => decCmdEndConditionalRender ws
    | 38 => decCmdDrawArrays ws
    | 39 => decCmdDrawArraysInstanced ws
    | 40 => decCmdDrawArraysInstancedBaseInstance ws
    | 41 => decCmdDrawArraysIndirect ws
    | 42 => decCmdDrawElements ws
    | 43 => decCmdDrawElementsBaseVertex ws
    | 44 => decCmdDrawElementsInstanced ws
    | 45 => decCmdDrawElementsInstancedBaseVertex ws
    | 46 => decCmdDrawElementsInstancedBaseVertexBaseInstance ws
    | 47 => decCmdDrawElementsIndirect ws
    | 48 => decCmdMultiDrawArraysIndirect ws
    | 49 => decCmdMultiDrawElementsIndirect ws
    | 50 => decCmdDispatchCompute ws
    | 51 => decCmdDispatchComputeIndirect ws
    | 52 => decCmdBindTexture ws
    | 53 => decCmdBindImageTexture ws
    | 54 => decCmdBindSampler ws
    | 55 => decCmdUnbindResources ws
    | 56 => decCmdPushDebugGroup ws
    | 57 => decCmdPopDebugGroup ws
    | _ => none
/-- Modelled from the spec: the native calls a GL command buffer issues
(either immediately against the native context, or during replay of a
deferred opcode stream by the command executor, both outside src/). One
constructor per native entry point; explicit size/count arguments are
carried next to the variable-length arrays they describe. -/
inductive GLNativeCall where
  | glBufferSubData (buffer offset size : Nat) (data : List Nat)
  | glCopyBufferSubData (writeBuffer readBuffer readOffset writeOffset size : Nat)
  | glClearBufferData (buffer data : Nat)
  | glClearBufferSubData (buffer offset size data : Nat)
  | glCopyImageSubData (dstTexture dstLevel : Nat) (dstOffset : Offset3D)
      (srcTexture srcLevel : Nat) (srcOffset : Offset3D) (extent : Extent3D)
  | glCopyImageToBuffer (texture : Nat) (region : TextureRegion)
      (bufferID offset size rowLength imageHeight : Nat)
  | glCopyImageFromBuffer (texture : Nat) (region : TextureRegion)
      (bufferID offset size rowLength imageHeight : Nat)
  | glGenerateMipmap (texture : Nat)
  | glGenerateMipmapSubresource (texture baseMipLevel numMipLevels baseArrayLayer numArrayLayers : Nat)
  | executeDeferred (commandBuffer : Nat)
  | setViewport (viewport : GLViewport)
  | setDepthRange (depthRange : GLDepthRange)
  | setViewportArray (first count : Nat) (viewports : List GLViewport)
  | setDepthRangeArray (first count : Nat) (depthRanges : List GLDepthRange)
  | setScissor (scissor : GLScissor)
  | setScissorArray (first count : Nat) (scissors : List GLScissor)
  | glClearColor (color0 color1 color2 color3 : Nat)
  | glClearDepth (depth : Nat)
  | glClearStencil (stencil : Nat)
  | glClear (flags : Nat)
  | clearAttachmentsWithRenderPass (renderPass numClearValues : Nat)
      (clearValues : List ClearValue)
  | clearBuffers (numAttachments : Nat) (attachments : List AttachmentClear)
  | glBindVertexArray (vao : Nat)
  | bindElementArrayBufferToVAO (id : Nat) (indexType16Bits : Bool)
  | glBindBufferBase (target index id : Nat)
  | glBindBuffersBase (target first count : Nat) (buffers : List Nat)
  | glBeginTransformFeedback (primitiveMove : Nat)
  | glBeginTransformFeedbackNV (primitiveMove : Nat)
  | glEndTransformFeedback
  | glEndTransformFeedbackNV
  | bindResourceHeap (resourceHeap descriptorSet : Nat)
  | bindRenderTarget (renderTarget : Nat)
  | bindPipelineState (pipelineState : Nat)
  | glBlendColor (color0 color1 color2 color3 : Nat)
  | setStencilRef (ref face : Nat)
  | setUniforms (program uniformType location count size : Nat) (data : List Nat)
  | glBeginQuery (queryHeap query : Nat)
  | glEndQuery (queryHeap : Nat)
  | glBeginConditionalRender (id mode : Nat)
  | glEndConditionalRender
  | glDrawArrays (mode first count : Nat)
  | glDrawArraysInstanced (mode first count instancecount : Nat)
  | glDrawArraysInstancedBaseInstance (mode first count instancecount baseinstance : Nat)
  | glDrawArraysIndirect (id numCommands mode indirect stride : Nat)
  | glDrawElements (mode count elementType indices : Nat)
  | glDrawElementsBaseVertex (mode count elementType indices basevertex : Nat)
  | glDrawElementsInstanced (mode count elementType indices instancecount : Nat)
  | glDrawElementsInstancedBaseVertex (mode count elementType indices instancecount basevertex : Nat)
  | glDrawElementsInstancedBaseVertexBaseInstance
      (mode count elementType indices instancecount basevertex baseinstance : Nat)
  | glDrawElementsIndirect (id numCommands mode elementType indirect stride : Nat)
  | glMultiDrawArraysIndirect (id mode indirect drawcount stride : Nat)
  | glMultiDrawElementsIndirect (id mode elementType indirect drawcount stride : Nat)
  | glDispatchCompute (numgroupsX numgroupsY numgroupsZ : Nat)
  | glDispatchComputeIndirect (id indirect : Nat)
  | bindTexture (slot texture : Nat)
  | glBindImageTexture (unit level format texture : Nat)
  | glBindSampler (layer sampler : Nat)
  | unbindResources (first count resetFlags : Nat)
  | glPushDebugGroup (source id length : Nat) (name : List Nat)
  | glPopDebugGroup

/-- Modelled from the spec: the dispatch of one high-level command to
its native calls, shared by the immediate-context path and the deferred
replay path (both outside src/). Viewport and scissor arrays issue the
viewport calls followed by the depth-range calls, as the payload layout
stores them. -/
def execGLCommand : GLCommand → List GLNativeCall
  | .bufferSubData buffer offset data =>
      [.glBufferSubData buffer offset data.length data]
  | .copyBufferSubData writeBuffer readBuffer readOffset writeOffset size =>
      [.glCopyBufferSubData writeBuffer readBuffer readOffset writeOffset size]
  | .clearBufferData buffer data => [.glClearBufferData buffer data]
  | .clearBufferSubData buffer offset size data =>
      [.glClearBufferSubData buffer offset size data]
  | .copyImageSubData dstTexture dstLevel dstOffset srcTexture srcLevel srcOffset extent =>
      [.glCopyImageSubData dstTexture dstLevel dstOffset srcTexture srcLevel srcOffset extent]
  | .copyImageToBuffer texture region bufferID offset size rowLength imageHeight =>
      [.glCopyImageToBuffer texture region bufferID offset size rowLength imageHeight]
  | .copyImageFromBuffer texture region bufferID offset size rowLength imageHeight =>
      [.glCopyImageFromBuffer texture region bufferID offset size rowLength imageHeight]
  | .generateMipmap texture => [.glGenerateMipmap texture]
  | .generateMipmapSubresource texture baseMipLevel numMipLevels baseArrayLayer numArrayLayers =>
      [.glGenerateMipmapSubresource texture baseMipLevel numMipLevels baseArrayLayer numArrayLayers]
  | .execute commandBuffer => [.executeDeferred commandBuffer]
  | .viewport viewport depthRange =>
      [.setViewport viewport, .setDepthRange depthRange]
  | .viewportArray first viewportsAndRanges =>
      [.setViewportArray first viewportsAndRanges.length (viewportsAndRanges.map Prod.fst),
       .setDepthRangeArray first viewportsAndRanges.length (viewportsAndRanges.map Prod.snd)]
  | .scissor scissor => [.setScissor scissor]
  | .scissorArray first scissors =>
      [.setScissorArray first scissors.length scissors]
  | .clearColor color0 color1 color2 color3 =>
      [.glClearColor color0 color1 color2 color3]
  | .clearDepth depth => [.glClearDepth depth]
  | .clearStencil stencil => [.glClearStencil stencil]
  | .clear flags => [.glClear flags]
  | .clearAttachmentsWithRenderPass renderPass clearValues =>
      [.clearAttachmentsWithRenderPass renderPass clearValues.length clearValues]
  | .clearBuffers attachments =>
      [.clearBuffers attachments.length attachments]
  | .bindVertexArray vao => [.glBindVertexArray vao]
  | .bindElementArrayBufferToVAO id indexType16Bits =>
      [.bindElementArrayBufferToVAO id indexType16Bits]
  | .bindBufferBase target index id => [.glBindBufferBase target index id]
  | .bindBuffersBase target first buffers =>
      [.glBindBuffersBase target first buffers.length buffers]
  | .beginTransformFeedback primitiveMove => [.glBeginTransformFeedback primitiveMove]
  | .beginTransformFeedbackNV primitiveMove => [.glBeginTransformFeedbackNV primitiveMove]
  | .endTransformFeedback => [.glEndTransformFeedback]
  | .endTransformFeedbackNV => [.glEndTransformFeedbackNV]
  | .bindResourceHeap resourceHeap descriptorSet =>
      [.bindResourceHeap resourceHeap descriptorSet]
  | .bindRenderTarget renderTarget => [.bindRenderTarget renderTarget]
  | .bindPipelineState pipelineState => [.bindPipelineState pipelineState]
  | .setBlendColor color0 color1 color2 color3 =>
      [.glBlendColor color0 color1 color2 color3]
  | .setStencilRef ref face => [.setStencilRef ref face]
  | .setUniforms program uniformType location count data =>
      [.setUniforms program uniformType location count data.length data]
  | .beginQuery queryHeap query => [.glBeginQuery queryHeap query]
  | .endQuery queryHeap => [.glEndQuery queryHeap]
  | .beginConditionalRender id mode => [.glBeginConditionalRender id mode]
  | .endConditionalRender => [.glEndConditionalRender]
  | .drawArrays mode first count => [.glDrawArrays mode first count]
  | .drawArraysInstanced mode first count instancecount =>
      [.glDrawArraysInstanced mode first count instancecount]
  | .drawArraysInstancedBaseInstance mode first count instancecount baseinstance =>
      [.glDrawArraysInstancedBaseInstance mode first count instancecount baseinstance]
  | .drawArraysIndirect id numCommands mode indirect stride =>
      [.glDrawArraysIndirect id numCommands mode indirect stride]
  | .drawElements mode count elementType indices =>
      [.glDrawElements mode count elementType indices]
  | .drawElementsBaseVertex mode count elementType indices basevertex =>
      [.glDrawElementsBaseVertex mode count elementType indices basevertex]
  | .drawElementsInstanced mode count elementType indices instancecount =>
      [.glDrawElementsInstanced mode count elementType indices instancecount]
  | .drawElementsInstancedBaseVertex mode count elementType indices instancecount basevertex =>
      [.glDrawElementsInstancedBaseVertex mode count elementType indices instancecount basevertex]
  | .drawElementsInstancedBaseVertexBaseInstance mode count elementType indices instancecount basevertex baseinstance =>
      [.glDrawElementsInstancedBaseVertexBaseInstance mode count elementType indices
        instancecount basevertex baseinstance]
  | .drawElementsIndirect id numCommands mode elementType indirect stride =>
      [.glDrawElementsIndirect id numCommands mode elementType indirect stride]
  | .multiDrawArraysIndirect id mode indirect drawcount stride =>
      [.glMultiDrawArraysIndirect id mode indirect drawcount stride]
  | .multiDrawElementsIndirect id mode elementType indirect drawcount stride =>
      [.glMultiDrawElementsIndirect id mode elementType indirect drawcount stride]
  | .dispatchCompute numgroupsX numgroupsY numgroupsZ =>
      [.glDispatchCompute numgroupsX numgroupsY numgroupsZ]
  | .dispatchComputeIndirect id indirect => [.glDispatchComputeIndirect id indirect]
  | .bindTexture slot texture => [.bindTexture slot texture]
  | .bindImageTexture unit level format texture =>
      [.glBindImageTexture unit level format texture]
  | .bindSampler layer sampler => [.glBindSampler layer sampler]
  | .unbindResources first count resetFlags => [.unbindResources first count resetFlags]
  | .pushDebugGroup source id name => [.glPushDebugGroup source id name.length name]
  | .popDebugGroup => [.glPopDebugGroup]

/-- The native calls issued when the command sequence is executed
immediately against the native context, in order. -/
def immediateNativeCalls : List GLCommand → List GLNativeCall
  | [] => []
  | c :: cs => execGLCommand c ++ immediateNativeCalls cs

/-- The opcode stream a deferred command buffer records for a command
sequence. -/
def encodeCommandStream : List GLCommand → List Nat
  | [] => []
  | c :: cs => encodeCommand c ++ encodeCommandStream cs

/-- Decode a whole opcode stream back into commands (`fuel` bounds the
number of commands; `replayNativeCalls` instantiates it with the stream
length, which always suffices). -/
def decodeCommandStream : Nat → List Nat → Option (List GLCommand)
  | _, [] => some []
  | 0, _ :: _ => none
  | Nat.succ fuel, w :: ws =>
    match decodeCommand (w :: ws) with
    | none => none
    | some (c, ws') =>
      match decodeCommandStream fuel ws' with
      | none => none
      | some cs => some (c :: cs)

/-- Replaying an opcode stream: decode it and issue the native calls of
every decoded command in order. -/
def replayNativeCalls (ws : List Nat) : Option (List GLNativeCall) :=
  match decodeCommandStream ws.length ws with
  | some cs => some (immediateNativeCalls cs)
  | none => none

/-- Staging capacity only grows from pool state `p` to pool state `q`:
no chunk is discarded, every chunk `p` already had keeps its capacity,
and the global upload/readback buffers never lose capacity. -/
def StagingCapacityGrows (p q : D3D12StagingBufferPool) : Prop :=
  p.chunks.length ≤ q.chunks.length ∧
  (q.chunks.take p.chunks.length).map D3D12StagingBuffer.size
      = p.chunks.map D3D12StagingBuffer.size ∧
  p.globalUploadBuffer.size ≤ q.globalUploadBuffer.size ∧
  p.globalReadbackBuffer.size ≤ q.globalReadbackBuffer.size

/-- What claim C1 asserts of one `WriteStaged` call on pool `p`:
starting from the current chunk index, the index is advanced past every
chunk without capacity for `dataSize` (stopping at the first chunk with
capacity); when no chunk from that index on fits, exactly one chunk of
size `max chunkSize dataSize` is appended and becomes current; the data
is written into the chunk at the resulting current index (advancing its
offset) and the write's HRESULT is returned. -/
def WriteStagedPost (p : D3D12StagingBufferPool) (dstBuffer : D3D12Resource)
    (dstOffset dataSize : Nat) (hrWrite : HRESULT) : Prop :=
  (p.WriteStaged dstBuffer dstOffset dataSize hrWrite).hr = hrWrite ∧
  (p.WriteStaged dstBuffer dstOffset dataSize hrWrite).pool.chunkIdx
      = findChunkIdx p.chunks p.chunkIdx dataSize ∧
  p.chunkIdx ≤ findChunkIdx p.chunks p.chunkIdx dataSize ∧
  (∀ k (hk : k < p.chunks.length), p.chunkIdx ≤ k →
      k < findChunkIdx p.chunks p.chunkIdx dataSize →
      p.chunks[k].Capacity dataSize = false) ∧
  (∀ hf : findChunkIdx p.chunks p.chunkIdx dataSize < p.chunks.length,
      p.chunks[findChunkIdx p.chunks p.chunkIdx dataSize].Capacity dataSize = true ∧
      (p.WriteStaged dstBuffer dstOffset dataSize hrWrite).pool.chunks
        = updateAt (D3D12StagingBuffer.WriteAndIncrementOffset · dataSize)
            p.chunks (findChunkIdx p.chunks p.chunkIdx dataSize)) ∧
  (findChunkIdx p.chunks p.chunkIdx dataSize = p.chunks.length →
      (p.WriteStaged dstBuffer dstOffset dataSize hrWrite).pool.chunks
        = p.chunks ++ [{ size := max p.chunkSize dataSize, offset := dataSize }])

/-- What claim C2 asserts between Resets: `WriteStaged`, `WriteImmediate`
and `ReadSubresourceRegion` never shrink or discard staging capacity; a
new chunk is allocated exactly when no chunk at or after the current
index has capacity; the global buffers are re-created by `ResizeBuffer`
only when the alignment-rounded requested size exceeds their current
capacity, and re-creation never shrinks them. -/
def PoolNeverShrinksPost (p : D3D12StagingBufferPool) (dstBuffer srcBuffer : D3D12Resource)
    (off dataSize alignment : Nat) (hrWrite hrMap : HRESULT) : Prop :=
  StagingCapacityGrows p (p.WriteStaged dstBuffer off dataSize hrWrite).pool ∧
  ((p.WriteStaged dstBuffer off dataSize hrWrite).pool.chunks.length
      = p.chunks.length + 1 ↔
    (∀ k (hk : k < p.chunks.length), p.chunkIdx ≤ k →
        p.chunks[k].Capacity dataSize = false)) ∧
  StagingCapacityGrows p (p.WriteImmediate dstBuffer off dataSize alignment hrWrite).pool ∧
  StagingCapacityGrows p (p.ReadSubresourceRegion srcBuffer off dataSize alignment hrMap).pool ∧
  (∀ b : D3D12StagingBuffer, b.offset = 0 →
      (ResizeBuffer b dataSize alignment = b ↔ GetAlignedSize dataSize alignment ≤ b.size) ∧
      b.size ≤ (ResizeBuffer b dataSize alignment).size)

/-- What claim C6 asserts of one `ReadSubresourceRegion` call: on a
failed map the failing HRESULT is returned and the caller's output
memory is untouched (and `Unmap` is never reached); otherwise exactly
`dataSize` bytes of the source starting at `srcOffset` are copied to the
output, the readback buffer is unmapped with an empty written range, and
S_OK is returned. -/
def ReadSubresourcePost (p : D3D12StagingBufferPool) (srcBuffer : D3D12Resource)
    (srcOffset dataSize alignment : Nat) (hrMap : HRESULT) : Prop :=
  (FAILED hrMap →
      (p.ReadSubresourceRegion srcBuffer srcOffset dataSize alignment hrMap).hr = hrMap ∧
      (p.ReadSubresourceRegion srcBuffer srcOffset dataSize alignment hrMap).output = none ∧
      (p.ReadSubresourceRegion srcBuffer srcOffset dataSize alignment hrMap).unmapWrittenRange
        = none) ∧
  (¬ FAILED hrMap →
      (p.ReadSubresourceRegion srcBuffer srcOffset dataSize alignment hrMap).hr = S_OK ∧
      (p.ReadSubresourceRegion srcBuffer srcOffset dataSize alignment hrMap).output
        = some ((srcBuffer.data.drop srcOffset).take dataSize) ∧
      (p.ReadSubresourceRegion srcBuffer srcOffset dataSize alignment hrMap).output.map
          List.length = some dataSize ∧
      (p.ReadSubresourceRegion srcBuffer srcOffset dataSize alignment hrMap).unmapWrittenRange
        = some (0, 0))

/-- A small concrete pool used to instantiate the pool theorems. -/
def samplePool : D3D12StagingBufferPool :=
  { chunks := [{ size := 4, offset := 0 }]
    chunkIdx := 0
    chunkSize := 16
    globalUploadBuffer := { size := 0, offset := 0 }
    globalReadbackBuffer := { size := 0, offset := 0 } }

/-- A small concrete resource used to instantiate the pool theorems. -/
def sampleResource : D3D12Resource :=
  { currentState := 1, data := [5, 6, 7] }

/-
=====================================================================
Theorems
=====================================================================
-/

/- ----- Codec helper lemmas (GL deferred command stream) ----- -/

theorem decodeCount_encodeVec {α : Type} (dec : List Nat → Option (α × List Nat))
    (enc : α → List Nat) (h : ∀ x rest, dec (enc x ++ rest) = some (x, rest)) :
    ∀ (xs : List α) (n : Nat) (rest : List Nat), n = xs.length →
      decodeCount dec n (encodeVec enc xs ++ rest) = some (xs, rest) := by
  intro xs
  induction xs with
  | nil => intro n rest hn; subst hn; simp [encodeVec, decodeCount]
  | cons x xs ih =>
      intro n rest hn; subst hn
      simp only [List.length_cons, encodeVec, List.append_assoc]
      simp [decodeCount, h, ih _ _ rfl]

theorem encodeVec_encWord (xs : List Nat) : encodeVec encWord xs = xs := by
  induction xs <;> simp [encodeVec, encWord, *]

theorem decodeCount_decWord (xs : List Nat) (n : Nat) (rest : List Nat)
    (hn : n = xs.length) : decodeCount decWord n (xs ++ rest) = some (xs, rest) := by
  have h := decodeCount_encodeVec decWord encWord (fun _ _ => rfl) xs n rest hn
  rwa [encodeVec_encWord] at h

theorem decodeCount_decViewport (xs : List GLViewport) (n : Nat) (rest : List Nat)
    (hn : n = xs.length) :
    decodeCount decViewport n (encodeVec encViewport xs ++ rest) = some (xs, rest) :=
  decodeCount_encodeVec _ _ (fun _ _ => rfl) xs n rest hn

theorem decodeCount_decDepthRange (xs : List GLDepthRange) (n : Nat) (rest : List Nat)
    (hn : n = xs.length) :
    decodeCount decDepthRange n (encodeVec encDepthRange xs ++ rest) = some (xs, rest) :=
  decodeCount_encodeVec _ _ (fun _ _ => rfl) xs n rest hn

theorem decodeCount_decScissor (xs : List GLScissor) (n : Nat) (rest : List Nat)
    (hn : n = xs.length) :
    decodeCount decScissor n (encodeVec encScissor xs ++ rest) = some (xs, rest) :=
  decodeCount_encodeVec _ _ (fun _ _ => rfl) xs n rest hn

theorem decodeCount_decClearValue (xs : List ClearValue) (n : Nat) (rest : List Nat)
    (hn : n = xs.length) :
    decodeCount decClearValue n (encodeVec encClearValue xs ++ rest) = some (xs, rest) :=
  decodeCount_encodeVec _ _ (fun _ _ => rfl) xs n rest hn

theorem decodeCount_decAttachmentClear (xs : List AttachmentClear) (n : Nat)
    (rest : List Nat) (hn : n = xs.length) :
    decodeCount decAttachmentClear n (encodeVec encAttachmentClear xs ++ rest)
      = some (xs, rest) :=
  decodeCount_encodeVec _ _ (fun _ _ => rfl) xs n rest hn

theorem zipPairs (l : List (α × β)) : (l.map Prod.fst).zip (l.map Prod.snd) = l := by
  induction l with
  | nil => rfl
  | cons x xs ih => simp [ih]

theorem decodeCommand_encodeCommand (c : GLCommand) (rest : List Nat) :
    decodeCommand (encodeCommand c ++ rest) = some (c, rest) := by
  cases c
  case bindElementArrayBufferToVAO id b => cases b <;> rfl
  case bufferSubData buffer offset data =>
      simp [encodeCommand, decodeCommand, decCmdBufferSubData, decodeCount_decWord]
  case viewportArray first vds =>
      simp [encodeCommand, decodeCommand, decCmdViewportArray, List.append_assoc,
        decodeCount_decViewport, decodeCount_decDepthRange, zipPairs]
  case scissorArray first ss =>
      simp [encodeCommand, decodeCommand, decCmdScissorArray, decodeCount_decScissor]
  case clearAttachmentsWithRenderPass renderPass cvs =>
      simp [encodeCommand, decodeCommand, decCmdClearAttachmentsWithRenderPass,
        decodeCount_decClearValue]
  case clearBuffers ats =>
      simp [encodeCommand, decodeCommand, decCmdClearBuffers,
        decodeCount_decAttachmentClear]
  case bindBuffersBase target first buffers =>
      simp [encodeCommand, decodeCommand, decCmdBindBuffersBase, decodeCount_decWord]
  case setUniforms program uniformType location count data =>
      simp [encodeCommand, decodeCommand, decCmdSetUniforms, decodeCount_decWord]
  case pushDebugGroup source id name =>
      simp [encodeCommand, decodeCommand, decCmdPushDebugGroup, decodeCount_decWord]
  all_goals rfl

theorem encodeCommand_length_pos (c : GLCommand) : 1 ≤ (encodeCommand c).length := by
  cases c <;> simp [encodeCommand]

theorem length_le_encodeCommandStream (cmds : List GLCommand) :
    cmds.length ≤ (encodeCommandStream cmds).length := by
  induction cmds with
  | nil => simp [encodeCommandStream]
  | cons c cs ih =>
      have := encodeCommand_length_pos c
      simp only [encodeCommandStream, List.length_append, List.length_cons]
      omega

theorem decodeCommandStream_encodeCommandStream :
    ∀ (cmds : List GLCommand) (fuel : Nat), cmds.length ≤ fuel →
      decodeCommandStream fuel (encodeCommandStream cmds) = some cmds := by
  intro cmds
  induction cmds with
  | nil => intro fuel _; cases fuel <;> rfl
  | cons c cs ih =>
      intro fuel hf
      cases fuel with
      | zero => simp at hf
      | succ fuel =>
          have hcs : cs.length ≤ fuel := by
            simp only [List.length_cons] at hf; omega
          have hne : 1 ≤ (encodeCommand c).length := encodeCommand_length_pos c
          cases h : encodeCommand c with
          | nil => rw [h] at hne; simp at hne
          | cons w ws =>
              have hdec : decodeCommand ((w :: ws) ++ encodeCommandStream cs)
                  = some (c, encodeCommandStream cs) := by
                rw [← h]; exact decodeCommand_encodeCommand c _
              simp only [encodeCommandStream, h, List.cons_append]
              simp only [List.cons_append] at hdec
              simp [decodeCommandStream, hdec, ih fuel hcs]

/-- C4: For every sequence of rendering/compute commands recorded into a
deferred command buffer, replaying the encoded opcode stream performs
the same native calls, in the same order and with the same arguments, as
issuing the same commands immediately against a native context (each
high-level command is encoded as one fixed opcode payload, with any
variable-length data appended directly after the payload). -/
theorem deferredReplay_eq_immediate (cmds : List GLCommand) :
    replayNativeCalls (encodeCommandStream cmds) = some (immediateNativeCalls cmds) := by
  unfold replayNativeCalls
  rw [decodeCommandStream_encodeCommandStream cmds _ (length_le_encodeCommandStream cmds)]

/- ----- Staging-pool helper lemmas ----- -/

theorem updateAt_length (f : α → α) :
    ∀ (l : List α) (i : Nat), (updateAt f l i).length = l.length := by
  intro l
  induction l with
  | nil => intro i; rfl
  | cons x xs ih =>
      intro i
      cases i with
      | zero => rfl
      | succ i => simp [updateAt, ih]

theorem updateAt_map (f : α → α) (g : α → β) (h : ∀ a, g (f a) = g a) :
    ∀ (l : List α) (i : Nat), (updateAt f l i).map g = l.map g := by
  intro l
  induction l with
  | nil => intro i; rfl
  | cons x xs ih =>
      intro i
      cases i with
      | zero => simp [updateAt, h]
      | succ i => simp [updateAt, ih]

theorem updateAt_append_length (f : α → α) (x : α) :
    ∀ (l : List α), updateAt f (l ++ [x]) l.length = l ++ [f x] := by
  intro l
  induction l with
  | nil => rfl
  | cons y ys ih => simp [updateAt, ih]

theorem findChunkIdx_props (chunks : List D3D12StagingBuffer) (dataSize : Nat) :
    ∀ (n idx : Nat), chunks.length - idx ≤ n →
      idx ≤ findChunkIdx chunks idx dataSize ∧
      (idx ≤ chunks.length → findChunkIdx chunks idx dataSize ≤ chunks.length) ∧
      (∀ k (hk : k < chunks.length), idx ≤ k →
          k < findChunkIdx chunks idx dataSize →
          chunks[k].Capacity dataSize = false) ∧
      (∀ hf : findChunkIdx chunks idx dataSize < chunks.length,
          chunks[findChunkIdx chunks idx dataSize].Capacity dataSize = true) := by
  intro n
  induction n with
  | zero =>
      intro idx hn
      have hlt : ¬ idx < chunks.length := by omega
      have hfix : findChunkIdx chunks idx dataSize = idx := by
        rw [findChunkIdx]; simp [hlt]
      rw [hfix]
      refine ⟨le_rfl, fun h => h, fun k hk hge hlt2 => by omega, fun hf => absurd hf hlt⟩
  | succ n ih =>
      intro idx hn
      by_cases hlt : idx < chunks.length
      · by_cases hc : chunks[idx].Capacity dataSize
        · have hfix : findChunkIdx chunks idx dataSize = idx := by
            rw [findChunkIdx]; simp [hlt, hc]
          rw [hfix]
          exact ⟨le_rfl, fun _ => by omega, fun k hk hge hlt2 => by omega, fun hf => hc⟩
        · have hfix : findChunkIdx chunks idx dataSize
              = findChunkIdx chunks (idx + 1) dataSize := by
            rw [findChunkIdx]; simp [hlt, hc]
          obtain ⟨ihge, ihle, ihskip, ihfits⟩ := ih (idx + 1) (by omega)
          rw [hfix]
          refine ⟨by omega, fun _ => ihle (by omega), ?_, ihfits⟩
          intro k hk hge hlt2
          by_cases hke : k = idx
          · subst hke
            simpa using Bool.of_not_eq_true hc
          · exact ihskip k hk (by omega) hlt2
      · have hfix : findChunkIdx chunks idx dataSize = idx := by
          rw [findChunkIdx]; simp [hlt]
        rw [hfix]
        refine ⟨le_rfl, fun h => h, fun k hk hge hlt2 => by omega, fun hf => absurd hf hlt⟩

/-- C1: For every call `WriteStaged(ctx, dst, dstOffset, data, dataSize)`
on a pool whose current chunk index is within bounds: starting from the
current chunk index, the index is advanced past every chunk whose
remaining capacity is less than `dataSize`; if no existing chunk from
that index onward fits, exactly one new chunk of size
`max(chunkSize, dataSize)` is appended and becomes the current chunk;
the data is then written into the chunk at the resulting current index
and that write's HRESULT is returned. -/
theorem writeStaged_advances_allocates_writes
    (p : D3D12StagingBufferPool) (dstBuffer : D3D12Resource)
    (dstOffset dataSize : Nat) (hrWrite : HRESULT)
    (hidx : p.chunkIdx ≤ p.chunks.length) :
    WriteStagedPost p dstBuffer dstOffset dataSize hrWrite := by
  obtain ⟨hge, hle, hskip, hfits⟩ :=
    findChunkIdx_props p.chunks dataSize (p.chunks.length - p.chunkIdx) p.chunkIdx le_rfl
  have hjle : findChunkIdx p.chunks p.chunkIdx dataSize ≤ p.chunks.length := hle hidx
  refine ⟨rfl, ?_, hge, hskip, ?_, ?_⟩
  · by_cases hcase : findChunkIdx p.chunks p.chunkIdx dataSize = p.chunks.length
    · simp [D3D12StagingBufferPool.WriteStaged, D3D12StagingBufferPool.AllocChunk, hcase]
    · simp [D3D12StagingBufferPool.WriteStaged, D3D12StagingBufferPool.AllocChunk, hcase]
  · intro hf
    have hcase : ¬ findChunkIdx p.chunks p.chunkIdx dataSize = p.chunks.length := by omega
    exact ⟨hfits hf, by simp [D3D12StagingBufferPool.WriteStaged, hcase]⟩
  · intro hcase
    simp [D3D12StagingBufferPool.WriteStaged, D3D12StagingBufferPool.AllocChunk, hcase,
      updateAt_append_length, D3D12StagingBuffer.WriteAndIncrementOffset]

theorem writeStaged_advances_allocates_writes_witness :
    samplePool.chunkIdx ≤ samplePool.chunks.length ∧
    WriteStagedPost samplePool sampleResource 0 8 0 :=
  ⟨by decide, writeStaged_advances_allocates_writes samplePool sampleResource 0 8 0 (by decide)⟩

theorem GetAlignedSize_ge (size alignment : Nat) : size ≤ GetAlignedSize size alignment := by
  unfold GetAlignedSize
  by_cases h : alignment > 1
  · simp only [h, if_true]
    have h1 := Nat.div_add_mod (size + alignment - 1) alignment
    have h2 : (size + alignment - 1) % alignment < alignment := Nat.mod_lt _ (by omega)
    rw [Nat.mul_comm]
    generalize (size + alignment - 1) % alignment = m at h1 h2
    generalize alignment * ((size + alignment - 1) / alignment) = t at h1 ⊢
    omega
  · simp [h]

theorem ResizeBuffer_size_ge (b : D3D12StagingBuffer) (size alignment : Nat)
    (hb : b.offset = 0) : b.size ≤ (ResizeBuffer b size alignment).size := by
  unfold ResizeBuffer
  by_cases hc : b.Capacity (GetAlignedSize size alignment)
  · simp [hc]
  · simp only [hc, Bool.false_eq_true, if_false, D3D12StagingBuffer.Create]
    have h1 : ¬ (b.offset + GetAlignedSize size alignment ≤ b.size) := by
      simpa [D3D12StagingBuffer.Capacity] using hc
    have h2 := GetAlignedSize_ge (GetAlignedSize size alignment) 4096
    omega

theorem ResizeBuffer_eq_iff (b : D3D12StagingBuffer) (size alignment : Nat)
    (hb : b.offset = 0) :
    (ResizeBuffer b size alignment = b ↔ GetAlignedSize size alignment ≤ b.size) := by
  unfold ResizeBuffer
  by_cases hc : b.Capacity (GetAlignedSize size alignment)
  · have h1 : b.offset + GetAlignedSize size alignment ≤ b.size := by
      simpa [D3D12StagingBuffer.Capacity] using hc
    simp only [hc, if_true, true_iff]
    omega
  · have h1 : ¬ (b.offset + GetAlignedSize size alignment ≤ b.size) := by
      simpa [D3D12StagingBuffer.Capacity] using hc
    simp only [hc, Bool.false_eq_true, if_false]
    constructor
    · intro he
      have hsz : (D3D12StagingBuffer.Create (GetAlignedSize size alignment) 4096).size
          = b.size := by rw [he]
      have h2 := GetAlignedSize_ge (GetAlignedSize size alignment) 4096
      simp [D3D12StagingBuffer.Create] at hsz
      omega
    · intro hle; omega

theorem writeStaged_chunks_of_alloc (p : D3D12StagingBufferPool)
    (dstBuffer : D3D12Resource) (dstOffset dataSize : Nat) (hrWrite : HRESULT)
    (hcase : findChunkIdx p.chunks p.chunkIdx dataSize = p.chunks.length) :
    (p.WriteStaged dstBuffer dstOffset dataSize hrWrite).pool.chunks
      = p.chunks ++ [{ size := max p.chunkSize dataSize, offset := dataSize }] := by
  simp [D3D12StagingBufferPool.WriteStaged, D3D12StagingBufferPool.AllocChunk, hcase,
    updateAt_append_length, D3D12StagingBuffer.WriteAndIncrementOffset]

theorem writeStaged_chunks_of_fit (p : D3D12StagingBufferPool)
    (dstBuffer : D3D12Resource) (dstOffset dataSize : Nat) (hrWrite : HRESULT)
    (hcase : ¬ findChunkIdx p.chunks p.chunkIdx dataSize = p.chunks.length) :
    (p.WriteStaged dstBuffer dstOffset dataSize hrWrite).pool.chunks
      = updateAt (D3D12StagingBuffer.WriteAndIncrementOffset · dataSize)
          p.chunks (findChunkIdx p.chunks p.chunkIdx dataSize) := by
  simp [D3D12StagingBufferPool.WriteStaged, hcase]

theorem writeStaged_globals (p : D3D12StagingBufferPool)
    (dstBuffer : D3D12Resource) (dstOffset dataSize : Nat) (hrWrite : HRESULT) :
    (p.WriteStaged dstBuffer dstOffset dataSize hrWrite).pool.globalUploadBuffer
        = p.globalUploadBuffer ∧
    (p.WriteStaged dstBuffer dstOffset dataSize hrWrite).pool.globalReadbackBuffer
        = p.globalReadbackBuffer := by
  by_cases hcase : findChunkIdx p.chunks p.chunkIdx dataSize = p.chunks.length <;>
    exact ⟨by simp [D3D12StagingBufferPool.WriteStaged,
              D3D12StagingBufferPool.AllocChunk, hcase],
           by simp [D3D12StagingBufferPool.WriteStaged,
              D3D12StagingBufferPool.AllocChunk, hcase]⟩

/-- C2: Across every sequence of pool operations between Resets, staging
memory only grows and is reused: `WriteStaged` allocates a new chunk only
when no chunk at or after the current index has capacity for the
requested size, and the global upload and readback buffers are
re-created only when the alignment-rounded requested size exceeds their
current capacity (`ResizeBuffer`), so no operation ever shrinks or
discards existing staging capacity. -/
theorem stagingMemory_only_grows
    (p : D3D12StagingBufferPool) (dstBuffer srcBuffer : D3D12Resource)
    (off dataSize alignment : Nat) (hrWrite hrMap : HRESULT)
    (hidx : p.chunkIdx ≤ p.chunks.length)
    (hup : p.globalUploadBuffer.offset = 0)
    (hrb : p.globalReadbackBuffer.offset = 0) :
    PoolNeverShrinksPost p dstBuffer srcBuffer off dataSize alignment hrWrite hrMap := by
  obtain ⟨hge, hle, hskip, hfits⟩ :=
    findChunkIdx_props p.chunks dataSize (p.chunks.length - p.chunkIdx) p.chunkIdx le_rfl
  have hjle := hle hidx
  obtain ⟨hgu, hgr⟩ := writeStaged_globals p dstBuffer off dataSize hrWrite
  refine ⟨?_, ?_, ?_, ?_, ?_⟩
  · -- WriteStaged never shrinks staging capacity
    unfold StagingCapacityGrows
    rw [hgu, hgr]
    by_cases hcase : findChunkIdx p.chunks p.chunkIdx dataSize = p.chunks.length
    · rw [writeStaged_chunks_of_alloc p dstBuffer off dataSize hrWrite hcase]
      exact ⟨by simp, by rw [List.take_left], le_rfl, le_rfl⟩
    · rw [writeStaged_chunks_of_fit p dstBuffer off dataSize hrWrite hcase]
      refine ⟨by rw [updateAt_length], ?_, le_rfl, le_rfl⟩
      conv_lhs => rw [show p.chunks.length
        = (updateAt (D3D12StagingBuffer.WriteAndIncrementOffset · dataSize)
            p.chunks (findChunkIdx p.chunks p.chunkIdx dataSize)).length
        from (updateAt_length _ _ _).symm]
      rw [List.take_length,
        updateAt_map (D3D12StagingBuffer.WriteAndIncrementOffset · dataSize)
          D3D12StagingBuffer.size (fun a => rfl)]
  · -- a chunk is appended exactly when no chunk at or after the index fits
    by_cases hcase : findChunkIdx p.chunks p.chunkIdx dataSize = p.chunks.length
    · constructor
      · intro _ k hk hgek
        exact hskip k hk hgek (by omega)
      · intro _
        rw [writeStaged_chunks_of_alloc p dstBuffer off dataSize hrWrite hcase]
        simp
    · have hf : findChunkIdx p.chunks p.chunkIdx dataSize < p.chunks.length := by omega
      constructor
      · intro hlen
        rw [writeStaged_chunks_of_fit p dstBuffer off dataSize hrWrite hcase,
          updateAt_length] at hlen
        omega
      · intro hall
        have h1 := hfits hf
        have h2 := hall (findChunkIdx p.chunks p.chunkIdx dataSize) hf hge
        rw [h1] at h2
        exact absurd h2 (by simp)
  · -- WriteImmediate never shrinks staging capacity
    have h1 : (p.WriteImmediate dstBuffer off dataSize alignment hrWrite).pool
        = { p with globalUploadBuffer := ResizeBuffer p.globalUploadBuffer dataSize alignment } :=
      rfl
    unfold StagingCapacityGrows
    rw [h1]
    exact ⟨le_rfl, by simp [List.take_length],
      ResizeBuffer_size_ge _ _ _ hup, le_rfl⟩
  · -- ReadSubresourceRegion never shrinks staging capacity
    have h1 : (p.ReadSubresourceRegion srcBuffer off dataSize alignment hrMap).pool
        = { p with globalReadbackBuffer := ResizeBuffer p.globalReadbackBuffer dataSize alignment } := by
      unfold D3D12StagingBufferPool.ReadSubresourceRegion
      by_cases h : FAILED hrMap <;> simp [h]
    unfold StagingCapacityGrows
    rw [h1]
    exact ⟨le_rfl, by simp [List.take_length], le_rfl,
      ResizeBuffer_size_ge _ _ _ hrb⟩
  · -- the global buffers are re-created only when the aligned size exceeds capacity
    intro b hb
    exact ⟨ResizeBuffer_eq_iff b _ _ hb, ResizeBuffer_size_ge b _ _ hb⟩

theorem stagingMemory_only_grows_witness :
    samplePool.chunkIdx ≤ samplePool.chunks.length ∧
    samplePool.globalUploadBuffer.offset = 0 ∧
    samplePool.globalReadbackBuffer.offset = 0 ∧
    PoolNeverShrinksPost samplePool sampleResource sampleResource 0 8 4 0 (-1) :=
  ⟨by decide, by decide, by decide,
   stagingMemory_only_grows samplePool sampleResource sampleResource 0 8 4 0 (-1)
     (by decide) (by decide) (by decide)⟩

/-- C3: For every call to `WriteStaged`, `WriteImmediate`, or
`ReadSubresourceRegion`, the tracked resource state of the destination
or source buffer after the call equals its value before the call: the
buffer is transitioned to COPY_DEST (writes) or COPY_SOURCE (reads) only
for the duration of the copy and back to the saved old state before the
function returns. -/
theorem transferOps_restore_resource_state
    (p : D3D12StagingBufferPool) (dstBuffer srcBuffer : D3D12Resource)
    (off dataSize alignment : Nat) (hrWrite hrMap : HRESULT) :
    ((p.WriteStaged dstBuffer off dataSize hrWrite).dstBuffer.currentState
        = dstBuffer.currentState ∧
     (p.WriteStaged dstBuffer off dataSize hrWrite).transitions
        = [D3D12_RESOURCE_STATE_COPY_DEST, dstBuffer.currentState]) ∧
    ((p.WriteImmediate dstBuffer off dataSize alignment hrWrite).dstBuffer.currentState
        = dstBuffer.currentState ∧
     (p.WriteImmediate dstBuffer off dataSize alignment hrWrite).transitions
        = [D3D12_RESOURCE_STATE_COPY_DEST, dstBuffer.currentState]) ∧
    ((p.ReadSubresourceRegion srcBuffer off dataSize alignment hrMap).srcBuffer.currentState
        = srcBuffer.currentState ∧
     (p.ReadSubresourceRegion srcBuffer off dataSize alignment hrMap).transitions
        = [D3D12_RESOURCE_STATE_COPY_SOURCE, srcBuffer.currentState]) := by
  refine ⟨⟨rfl, rfl⟩, ⟨rfl, rfl⟩, ?_⟩
  unfold D3D12StagingBufferPool.ReadSubresourceRegion
  by_cases h : FAILED hrMap <;> simp [h, TransitionResource]

/-- C6: For every `ReadSubresourceRegion` call on a source buffer large
enough for the requested region: if mapping the readback buffer fails,
the failing HRESULT is returned and nothing is written to the caller's
output memory; otherwise exactly `dataSize` bytes originating from the
source at `srcOffset` are copied into the output memory, the readback
buffer is unmapped with an empty written range, and S_OK is returned. -/
theorem readSubresourceRegion_error_handling
    (p : D3D12StagingBufferPool) (srcBuffer : D3D12Resource)
    (srcOffset dataSize alignment : Nat) (hrMap : HRESULT)
    (hlen : srcOffset + dataSize ≤ srcBuffer.data.length) :
    ReadSubresourcePost p srcBuffer srcOffset dataSize alignment hrMap := by
  unfold ReadSubresourcePost D3D12StagingBufferPool.ReadSubresourceRegion
  by_cases h : FAILED hrMap
  · simp [h]
  · simp [h, List.length_take, List.length_drop]
    omega

theorem readSubresourceRegion_error_handling_witness :
    (1 + 2 ≤ sampleResource.data.length ∧
      ReadSubresourcePost samplePool sampleResource 1 2 4 (-1)) ∧
    (1 + 2 ≤ sampleResource.data.length ∧
      ReadSubresourcePost samplePool sampleResource 1 2 4 0) :=
  ⟨⟨by decide, readSubresourceRegion_error_handling samplePool sampleResource 1 2 4 (-1)
      (by decide)⟩,
   ⟨by decide, readSubresourceRegion_error_handling samplePool sampleResource 1 2 4 0
      (by decide)⟩⟩

/-- C8: `Reset` retains all allocated staging memory for reuse: after
`Reset` the number of chunks and each chunk's capacity are unchanged,
while every chunk's write offset and the pool's current chunk index are
zero (so the next `WriteStaged` search begins at chunk 0). -/
theorem reset_retains_capacity_rewinds_offsets (p : D3D12StagingBufferPool) :
    (p.Reset).chunks.length = p.chunks.length ∧
    (p.Reset).chunks.map D3D12StagingBuffer.size
        = p.chunks.map D3D12StagingBuffer.size ∧
    (p.Reset).chunks.map D3D12StagingBuffer.offset
        = List.replicate p.chunks.length 0 ∧
    (p.Reset).chunkIdx = 0 := by
  refine ⟨by simp [D3D12StagingBufferPool.Reset], ?_, ?_, rfl⟩
  · simp only [D3D12StagingBufferPool.Reset, List.map_map]
    rfl
  · simp only [D3D12StagingBufferPool.Reset, List.map_map]
    induction p.chunks with
    | nil => rfl
    | cons c cs ih => simp [D3D12StagingBuffer.Reset, ih, List.replicate_succ]

/-- C5 counterexample: the claim "for every swap chain the number of
swap buffers it reports is at least 2" fails on the GL backend, whose
`GetNumSwapBuffers` returns the dummy count 1. -/
theorem glSwapChain_reports_one_swap_buffer :
    GLSwapChain.GetNumSwapBuffers { framebufferHeight := 600 } = 1 ∧
    ¬ 2 ≤ GLSwapChain.GetNumSwapBuffers { framebufferHeight := 600 } := by decide

/-- C5 (amended): for every GL swap chain, the current swap-buffer index
it reports is strictly less than the number of swap buffers it reports,
but that number is the dummy value 1 (not at least 2). -/
theorem glSwapChain_swapIndex_lt_numSwapBuffers (s : GLSwapChain) :
    GLSwapChain.GetCurrentSwapIndex s < GLSwapChain.GetNumSwapBuffers s ∧
    GLSwapChain.GetNumSwapBuffers s = 1 :=
  ⟨Nat.zero_lt_one, rfl⟩

/-- C7: `GetRendererModule` maps each recognized alias to its canonical
backend module with version 0, maps "gl" or "opengl" followed by exactly
three decimal digits to "OpenGL" with the version parsed from those
digits, and returns every other name unchanged with version 0. -/
theorem getRendererModule_eq_spec (name : String) :
    GetRendererModule name = getRendererModuleSpec name := by
  unfold GetRendererModule getRendererModuleSpec rendererModuleAliases
  by_cases h1 : name = "gl"
  · subst h1; rfl
  by_cases h2 : name = "opengl"
  · subst h2; rfl
  by_cases h3 : name = "vk"
  · subst h3; rfl
  by_cases h4 : name = "vulkan"
  · subst h4; rfl
  by_cases h5 : name = "mt"
  · subst h5; rfl
  by_cases h6 : name = "mtl"
  · subst h6; rfl
  by_cases h7 : name = "metal"
  · subst h7; rfl
  by_cases h8 : name = "d3d11"
  · subst h8; rfl
  by_cases h9 : name = "dx11"
  · subst h9; rfl
  by_cases h10 : name = "direct3d11"
  · subst h10; rfl
  by_cases h11 : name = "d3d12"
  · subst h11; rfl
  by_cases h12 : name = "dx12"
  · subst h12; rfl
  by_cases h13 : name = "direct3d12"
  · subst h13; rfl
  by_cases h14 : name = "null"
  · subst h14; rfl
  simp [List.find?, h1, h2, h3, h4, h5, h6, h7, h8, h9, h10, h11, h12, h13, h14]

/-- C9: On non-mobile platforms `Canvas::Create` returns null for every
descriptor, and the default `Canvas::AdaptForVideoMode` returns false
for every video-mode descriptor. -/
theorem canvas_create_null_adapt_false (desc : CanvasDescriptor) (c : Canvas)
    (videoModeDesc : VideoModeDescriptor) :
    Canvas.Create desc = none ∧ Canvas.AdaptForVideoMode c videoModeDesc = false :=
  ⟨rfl, rfl⟩

/-- C10: a canvas's event-listener list never contains the same listener
twice: `AddEventListener` inserts only when absent (so repeated adds are
idempotent and preserve distinctness), and `RemoveEventListener` removes
the listener, after which `ProcessEvents` no longer notifies it. -/
theorem canvas_listeners_nodup_add_remove (c : Canvas) (l : Nat) :
    (c.AddEventListener l).AddEventListener l = c.AddEventListener l ∧
    (c.eventListeners.Nodup →
        (c.AddEventListener l).eventListeners.Nodup ∧
        (c.RemoveEventListener l).eventListeners.Nodup ∧
        l ∉ (c.RemoveEventListener l).eventListeners ∧
        l ∉ (c.RemoveEventListener l).ProcessEvents) := by
  constructor
  · unfold Canvas.AddEventListener AddOnceToSharedList
    by_cases h : l ∈ c.eventListeners <;> simp [h]
  · intro hnd
    have herase : l ∉ c.eventListeners.erase l := List.Nodup.not_mem_erase hnd
    refine ⟨?_, ?_, ?_, ?_⟩
    · unfold Canvas.AddEventListener AddOnceToSharedList
      by_cases h : l ∈ c.eventListeners
      · simpa [h] using hnd
      · simp [h, List.nodup_append, hnd]
    · exact hnd.erase l
    · exact herase
    · exact herase

theorem canvas_listeners_nodup_add_remove_witness :
    ((⟨[1, 2]⟩ : Canvas).AddEventListener 1).AddEventListener 1
        = (⟨[1, 2]⟩ : Canvas).AddEventListener 1 ∧
    (((⟨[1, 2]⟩ : Canvas).AddEventListener 1).eventListeners.Nodup ∧
     ((⟨[1, 2]⟩ : Canvas).RemoveEventListener 1).eventListeners.Nodup ∧
     1 ∉ ((⟨[1, 2]⟩ : Canvas).RemoveEventListener 1).eventListeners ∧
     1 ∉ ((⟨[1, 2]⟩ : Canvas).RemoveEventListener 1).ProcessEvents) :=
  ⟨(canvas_listeners_nodup_add_remove ⟨[1, 2]⟩ 1).1,
   (canvas_listeners_nodup_add_remove ⟨[1, 2]⟩ 1).2 (by decide)⟩

end LLGL
